import Mathlib

/-!
Verification of the persisted application-state subsystem of the art2 desktop
chat client: the schema-validated key-value store, the bounded chat-history log
with FIFO eviction, the debounced window-state writer, the boundary error
wrapper, and the image-analysis input validation.

The embedding follows the TypeScript sources:
  - `src/types/schemas.ts` (zod schemas and the lenient validators),
  - `src/main/main.ts` (IPC handlers, window-state clamping, debounce),
  - `src/main/utils/ipc-wrapper.ts` (boolean boundary wrapper, constants),
  - `src/utils/validation.ts` (base64 / MIME validation).
JSON documents are modelled by an inductive `JValue`; JavaScript numbers that
the schemas constrain only by `z.number()` are modelled as integers.
-/

namespace Art2

/-- A JSON-like value as stored in the electron-store backing file and as
delivered over IPC. Objects are ordered field lists; property lookup takes the
first match. -/
inductive JValue where
  | jnull
  | jbool (b : Bool)
  | jnum (n : Int)
  | jstr (s : String)
  | jarr (elems : List JValue)
  | jobj (fields : List (String × JValue))

/-- First-match property lookup on a JSON object's field list. -/
def getField (key : String) : List (String × JValue) → Option JValue
  | [] => none
  | (k, v) :: rest => if k = key then some v else getField key rest

/-- `role` enum of `ChatMessageSchema`: `z.enum(['user', 'assistant'])`. -/
inductive Role where
  | user
  | assistant
  deriving DecidableEq, Repr

/-- JSON encoding of a role literal. -/
def Role.str : Role → String
  | .user => "user"
  | .assistant => "assistant"

/-- A chat message as validated by `ChatMessageSchema` (schemas.ts:5-10):
exactly the fields `id`, `role`, `content`, `timestamp`. -/
structure ChatMessage where
  id : String
  role : Role
  content : String
  timestamp : Int
  deriving DecidableEq, Repr

/-- Read a JSON value as a string (zod `z.string()`). -/
def asString : Option JValue → Option String
  | some (.jstr s) => some s
  | _ => none

/-- Read a JSON value as a number (zod `z.number()`). -/
def asNumber : Option JValue → Option Int
  | some (.jnum n) => some n
  | _ => none

/-- Read a JSON value as a boolean (zod `z.boolean()`). -/
def asBool : Option JValue → Option Bool
  | some (.jbool b) => some b
  | _ => none

/-- Read a JSON value as a role literal (zod `z.enum(['user','assistant'])`). -/
def asRole : Option JValue → Option Role
  | some (.jstr "user") => some Role.user
  | some (.jstr "assistant") => some Role.assistant
  | _ => none

/-- `ChatMessageSchema.safeParse` (schemas.ts:5-10): succeeds on an object whose
`id` and `content` are strings, `role` is one of the two literals and
`timestamp` is a number; unknown fields are stripped (zod default). -/
def parseChatMessage : JValue → Option ChatMessage
  | .jobj fields => do
      let id ← asString (getField "id" fields)
      let role ← asRole (getField "role" fields)
      let content ← asString (getField "content" fields)
      let timestamp ← asNumber (getField "timestamp" fields)
      pure { id := id, role := role, content := content, timestamp := timestamp }
  | _ => none

/-- Re-encoding of a validated message as the JSON object that `store.set`
persists: exactly the four schema fields. -/
def ChatMessage.toJ (m : ChatMessage) : JValue :=
  .jobj [("id", .jstr m.id), ("role", .jstr m.role.str),
         ("content", .jstr m.content), ("timestamp", .jnum m.timestamp)]

/-- `MAX_CHAT_HISTORY_SIZE` (config/constants.ts). -/
def MAX_CHAT_HISTORY_SIZE : Nat := 1000

/-- Element-wise parse of a JSON array against `ChatMessageSchema`
(`z.array(ChatMessageSchema)`): succeeds only if every element parses. -/
def parseAll : List JValue → Option (List ChatMessage)
  | [] => some []
  | v :: vs =>
    match parseChatMessage v, parseAll vs with
    | some m, some ms => some (m :: ms)
    | _, _ => none

/-- `ChatHistorySchema.safeParse` (schemas.ts:27): an array of valid messages of
length at most 1000. -/
def chatHistoryParse : JValue → Option (List ChatMessage)
  | .jarr elems => if elems.length ≤ MAX_CHAT_HISTORY_SIZE then parseAll elems else none
  | _ => none

/-- `validateChatHistory` (schemas.ts:35-42): lenient — an empty list on any
parse failure. -/
def validateChatHistory (data : JValue) : List ChatMessage :=
  (chatHistoryParse data).getD []

/-- A window state as validated by `WindowStateSchema` (schemas.ts:13-19). -/
structure WindowState where
  x : Int
  y : Int
  width : Int
  height : Int
  isMaximized : Bool
  deriving DecidableEq, Repr

/-- `WindowStateSchema.safeParse`: an object with numeric `x`, `y`, `width`,
`height` and boolean `isMaximized`; unknown fields are stripped. -/
def parseWindowState : JValue → Option WindowState
  | .jobj fields => do
      let x ← asNumber (getField "x" fields)
      let y ← asNumber (getField "y" fields)
      let width ← asNumber (getField "width" fields)
      let height ← asNumber (getField "height" fields)
      let isMaximized ← asBool (getField "isMaximized" fields)
      pure { x := x, y := y, width := width, height := height, isMaximized := isMaximized }
  | _ => none

/-- JSON encoding of a window state as persisted by `saveWindowState`. -/
def WindowState.toJ (w : WindowState) : JValue :=
  .jobj [("x", .jnum w.x), ("y", .jnum w.y), ("width", .jnum w.width),
         ("height", .jnum w.height), ("isMaximized", .jbool w.isMaximized)]

/-- `validateWindowState` (schemas.ts:44-51): lenient — `undefined` (here
`none`) on any parse failure. -/
def validateWindowState (data : JValue) : Option WindowState :=
  parseWindowState data

/-- `SettingsSchema.safeParse` (schemas.ts:22-24): `z.object({})` — succeeds
exactly on objects, stripping every field. -/
def parseSettings : JValue → Option JValue
  | .jobj _ => some (.jobj [])
  | _ => none

/-- `validateSettings` (schemas.ts:53-60): lenient — the empty object on any
parse failure. -/
def validateSettings (data : JValue) : JValue :=
  (parseSettings data).getD (.jobj [])

/-- The electron-store backing document: one slot per allowed key
(`chatHistory`, `windowState`, `settings`); `none` models an absent key. -/
structure Store where
  chatHistory : Option JValue
  windowState : Option JValue
  settings : Option JValue

/-- A store with no keys written yet. -/
def emptyStore : Store := { chatHistory := none, windowState := none, settings := none }

/-- `store.get('chatHistory', [])` — the raw slot with the empty-array default. -/
def getChatHistoryRaw (st : Store) : JValue :=
  st.chatHistory.getD (.jarr [])

/-- The `GET_CHAT_HISTORY` handler body (main.ts:328-331). -/
def getChatHistory (st : Store) : List ChatMessage :=
  validateChatHistory (getChatHistoryRaw st)

/-- The `GET_WINDOW_STATE` handler body (main.ts:269-272): `store.get` with no
default, then lenient validation. -/
def getWindowState (st : Store) : Option WindowState :=
  match st.windowState with
  | some v => validateWindowState v
  | none => none

/-- The `GET_SETTINGS` handler body (main.ts:252-255). -/
def getSettings (st : Store) : JValue :=
  validateSettings (st.settings.getD (.jobj []))

/-- The `SAVE_MESSAGE` handler body (main.ts:333-352): strict-validate the
incoming message, lenient-read the history, append, evict from the front past
`MAX_CHAT_HISTORY_SIZE` (`history.splice(0, history.length - MAX)`), persist. -/
def saveMessage (st : Store) (message : JValue) : Store × Bool :=
  match parseChatMessage message with
  | none => (st, false)
  | some m =>
    let history := validateChatHistory (getChatHistoryRaw st)
    let history1 := history ++ [m]
    let history2 :=
      if history1.length > MAX_CHAT_HISTORY_SIZE then
        history1.drop (history1.length - MAX_CHAT_HISTORY_SIZE)
      else history1
    ({ st with chatHistory := some (.jarr (history2.map ChatMessage.toJ)) }, true)

/-- The `DELETE_MESSAGE` handler body (main.ts:359-364): lenient-read, filter
out every entry whose `id` equals the argument, persist, report success. -/
def deleteMessage (st : Store) (messageId : String) : Store × Bool :=
  let history := validateChatHistory (getChatHistoryRaw st)
  let filteredHistory := history.filter (fun msg => msg.id ≠ messageId)
  ({ st with chatHistory := some (.jarr (filteredHistory.map ChatMessage.toJ)) }, true)

/-- The `CLEAR_HISTORY` handler body (main.ts:354-357). -/
def clearHistory (st : Store) : Store × Bool :=
  ({ st with chatHistory := some (.jarr []) }, true)

/-- Folding a sequence of `SAVE_MESSAGE` calls over the store. -/
def saveAll (st : Store) (messages : List JValue) : Store :=
  messages.foldl (fun s v => (saveMessage s v).1) st

/-- `wrapIpcBooleanHandler` (ipc-wrapper.ts:43-63): run the wrapped body; pass a
returned boolean through; on a thrown error, log and return `false` instead of
propagating. A thrown error is an `Except.error`; the wrapper's own result
being an `Except` makes "never throws past this boundary" expressible. -/
def wrapIpcBooleanHandler {α : Type} (handler : α → Except String Bool) :
    α → Except String Bool :=
  fun args =>
    match handler args with
    | .ok result => .ok result
    | .error _ => .ok false

/-- `WINDOW_STATE_SAVE_DEBOUNCE_MS` (config/constants.ts). -/
def WINDOW_STATE_SAVE_DEBOUNCE_MS : Nat := 500

/-- The body of the debounce timer callback in `saveWindowState`
(main.ts:65-76): read the live window geometry and persist it under
`windowState`, with no clamping. -/
def fireWindowStateSave (st : Store) (bounds : WindowState) : Store :=
  { st with windowState := some bounds.toJ }

/-- State of a debounced run: the store, the list of times at which a persist
actually fired, and the pending timer deadline (`saveWindowStateTimeout`). -/
structure DebounceRun where
  store : Store
  writes : List Nat
  pending : Option Nat

/-- `saveWindowState()` (main.ts:60-78) called at time `t`: clear any pending
timer and schedule a new one for `t + 500`. If an earlier timer's deadline has
already passed (`d ≤ t`), that timer fired before this call, persisting the
geometry `geom d` current at its fire time. -/
def notifyAt (geom : Nat → WindowState) (r : DebounceRun) (t : Nat) : DebounceRun :=
  match r.pending with
  | some d =>
    if d ≤ t then
      { store := fireWindowStateSave r.store (geom d),
        writes := r.writes ++ [d],
        pending := some (t + WINDOW_STATE_SAVE_DEBOUNCE_MS) }
    else
      { r with pending := some (t + WINDOW_STATE_SAVE_DEBOUNCE_MS) }
  | none => { r with pending := some (t + WINDOW_STATE_SAVE_DEBOUNCE_MS) }

/-- A burst of `saveWindowState()` calls at the given times, in order. -/
def runNotifies (geom : Nat → WindowState) (r : DebounceRun) (ts : List Nat) : DebounceRun :=
  ts.foldl (notifyAt geom) r

/-- Let a pending timer fire after the burst is over (no further `notify` and
no shutdown arrive before its deadline). -/
def fireFinal (geom : Nat → WindowState) (r : DebounceRun) : DebounceRun :=
  match r.pending with
  | some d =>
    { store := fireWindowStateSave r.store (geom d),
      writes := r.writes ++ [d],
      pending := none }
  | none => r

/-- Window-geometry constants (config/constants.ts). -/
def MIN_WINDOW_WIDTH : Int := 800

/-- Minimum window height (config/constants.ts). -/
def MIN_WINDOW_HEIGHT : Int := 600

/-- Default window width (config/constants.ts). -/
def DEFAULT_WINDOW_WIDTH : Int := 1200

/-- Default window height (config/constants.ts). -/
def DEFAULT_WINDOW_HEIGHT : Int := 800

/-- Margin used when centering the fallback window (config/constants.ts). -/
def WINDOW_DISPLAY_MARGIN : Int := 100

/-- Maximum window dimension as a multiple of the display (config/constants.ts). -/
def MAX_DIMENSION_MULTIPLIER : Int := 2

/-- The primary display's work area (`screen.getPrimaryDisplay().workArea`). -/
structure Display where
  x : Int
  y : Int
  width : Int
  height : Int

/-- `defaultState` in `createWindow` (main.ts:82-88). -/
def defaultWindowState : WindowState :=
  { width := DEFAULT_WINDOW_WIDTH, height := DEFAULT_WINDOW_HEIGHT,
    isMaximized := false, x := 0, y := 0 }

/-- `isOffScreen` (main.ts:97-100): the saved window lies completely outside
the display's work area. -/
def isOffScreen (s : WindowState) (d : Display) : Bool :=
  (s.x + s.width < d.x) || (s.x > d.x + d.width) ||
  (s.y + s.height < d.y) || (s.y > d.y + d.height)

/-- `hasInvalidDimensions` (main.ts:102-103): below the configured minimums or
above `MAX_DIMENSION_MULTIPLIER` times the display's work area. -/
def hasInvalidDimensions (s : WindowState) (d : Display) : Bool :=
  (s.width < MIN_WINDOW_WIDTH) || (s.height < MIN_WINDOW_HEIGHT) ||
  (s.width > d.width * MAX_DIMENSION_MULTIPLIER) ||
  (s.height > d.height * MAX_DIMENSION_MULTIPLIER)

/-- The centered fallback geometry (main.ts:108-114), preserving the saved
`isMaximized` flag; `Math.floor` of the halved difference is `Int.fdiv`. -/
def centeredDefault (d : Display) (savedIsMaximized : Bool) : WindowState :=
  let w := min DEFAULT_WINDOW_WIDTH (d.width - WINDOW_DISPLAY_MARGIN)
  let h := min DEFAULT_WINDOW_HEIGHT (d.height - WINDOW_DISPLAY_MARGIN)
  { width := w, height := h,
    x := Int.fdiv (d.width - w) 2 + d.x,
    y := Int.fdiv (d.height - h) 2 + d.y,
    isMaximized := savedIsMaximized }

/-- The clamping decision in `createWindow` (main.ts:105-117). -/
def chooseWindowState (savedState : WindowState) (d : Display) : WindowState :=
  if isOffScreen savedState d || hasInvalidDimensions savedState d then
    centeredDefault d savedState.isMaximized
  else savedState

/-- The full load path of `createWindow` (main.ts:89-117): raw slot with the
default, lenient validation falling back to the default, then clamping against
the current display. -/
def loadWindowState (st : Store) (d : Display) : WindowState :=
  let rawSavedState := st.windowState.getD defaultWindowState.toJ
  let savedState := (validateWindowState rawSavedState).getD defaultWindowState
  chooseWindowState savedState d

/-- `ALLOWED_IMAGE_TYPES` (config/constants.ts). -/
def ALLOWED_IMAGE_TYPES : List String :=
  ["image/jpeg", "image/jpg", "image/png", "image/gif", "image/webp"]

/-- A character of the base64 alphabet proper (`[A-Za-z0-9+/]`). -/
def isBase64Char (c : Char) : Bool :=
  (('A' ≤ c && c ≤ 'Z') || ('a' ≤ c && c ≤ 'z') || ('0' ≤ c && c ≤ '9') ||
   c = '+' || c = '/')

/-- The regex `^[A-Za-z0-9+/]*={0,2}$`: alphabet characters followed by at most
two `=` padding characters. -/
def base64Shape (s : String) : Bool :=
  match s.toList.reverse with
  | '=' :: '=' :: rest => rest.reverse.all isBase64Char
  | '=' :: rest => rest.reverse.all isBase64Char
  | cs => cs.reverse.all isBase64Char

/-- `validateBase64` (validation.ts:9-19): non-empty, matches the base64 regex
and has length divisible by 4 (`BASE64_PADDING_DIVISOR`). -/
def validateBase64 (data : String) : Bool :=
  if data = "" then false
  else base64Shape data && data.length % 4 == 0

/-- JavaScript string whitespace for `trim` (the ASCII subset relevant here). -/
def isJsWhitespace (c : Char) : Bool :=
  c = ' ' || c = '\t' || c = '\n' || c = '\r'

/-- `String.prototype.trim`, implemented on the character list. -/
def jsTrim (s : String) : String :=
  String.mk (((s.data.dropWhile isJsWhitespace).reverse.dropWhile isJsWhitespace).reverse)

/-- `String.prototype.toLowerCase`, implemented on the character list. -/
def jsToLower (s : String) : String :=
  String.mk (s.data.map Char.toLower)

/-- `validateMimeType` (validation.ts:26-33): case-insensitive membership in
the whitelist. -/
def validateMimeType (mimeType : String) : Bool :=
  if mimeType = "" then false
  else ALLOWED_IMAGE_TYPES.contains (jsToLower mimeType)

/-- Result of `validateImageData` (validation.ts:41-65). -/
inductive ValidationResult where
  | valid
  | invalid (error : String)
  deriving DecidableEq, Repr

/-- `validateImageData` (validation.ts:41-65): non-empty strings, whitelisted
MIME type, base64-shaped image data — checked in that order. -/
def validateImageData (imageBase64 : String) (mimeType : String) : ValidationResult :=
  if imageBase64 = "" then
    .invalid "Image data is required and must be a valid string"
  else if mimeType = "" then
    .invalid "MIME type is required and must be a valid string"
  else if !validateMimeType mimeType then
    .invalid ("Unsupported image format: " ++ mimeType)
  else if !validateBase64 imageBase64 then
    .invalid "Invalid image data format. Expected valid base64 encoding."
  else .valid

/-- Outcome of the `ANALYZE_IMAGE` handler's validation gate: either an
unsuccessful envelope, or the arguments with which the AI call is made. -/
inductive AnalyzeOutcome where
  | rejected (error : String)
  | callAI (imageBase64 : String) (mimeType : String) (prompt : String)
  deriving DecidableEq, Repr

/-- `true` exactly when the handler proceeds to the AI call. -/
def AnalyzeOutcome.reachesAI : AnalyzeOutcome → Bool
  | .rejected _ => false
  | .callAI _ _ _ => true

/-- The `ANALYZE_IMAGE` handler's validation gate (main.ts:305-324): string
type check, non-blank check, `validateImageData`, then the AI call with the
MIME type normalized to lowercase. -/
def analyzeImageHandler (imageBase64 mimeType prompt : JValue) : AnalyzeOutcome :=
  match imageBase64, mimeType, prompt with
  | .jstr i, .jstr m, .jstr p =>
    if jsTrim i = "" ∨ jsTrim m = "" ∨ jsTrim p = "" then
      .rejected "Invalid arguments: imageBase64, mimeType, and prompt cannot be empty"
    else
      match validateImageData i m with
      | .invalid e => .rejected e
      | .valid => .callAI i (jsToLower m) p
  | _, _, _ =>
    .rejected "Invalid arguments: imageBase64, mimeType, and prompt must all be strings"

/-! ### List lemmas about taking a suffix (`List.rtake`) -/

theorem rtake_eq_of_length_le {α : Type} {l : List α} {n : Nat} (h : l.length ≤ n) :
    l.rtake n = l := by
  simp [List.rtake, Nat.sub_eq_zero_of_le h]

theorem length_rtake {α : Type} (n : Nat) (l : List α) :
    (l.rtake n).length = min n l.length := by
  simp only [List.rtake, List.length_drop]
  omega

theorem take_append_take {α : Type} (n : Nat) (a b : List α) :
    (a ++ b.take n).take n = (a ++ b).take n := by
  rw [List.take_append_eq_append_take, List.take_append_eq_append_take, List.take_take,
    Nat.min_eq_left (Nat.sub_le _ _)]

theorem rtake_append_left {α : Type} (n : Nat) (l l2 : List α) :
    (l.rtake n ++ l2).rtake n = (l ++ l2).rtake n := by
  simp only [List.rtake_eq_reverse_take_reverse, List.reverse_append, List.reverse_reverse]
  rw [take_append_take]

theorem rtake_append_right {α : Type} (n : Nat) (l1 l2 : List α) (h : n ≤ l2.length) :
    (l1 ++ l2).rtake n = l2.rtake n := by
  simp only [List.rtake_eq_reverse_take_reverse, List.reverse_append]
  rw [List.take_append_of_le_length (by simpa using h)]

/-! ### Round-trip and shape lemmas for the schema validators -/

theorem parseChatMessage_toJ (m : ChatMessage) : parseChatMessage m.toJ = some m := by
  obtain ⟨id, role, content, ts⟩ := m
  cases role <;> rfl

theorem parseAll_map_toJ (l : List ChatMessage) :
    parseAll (l.map ChatMessage.toJ) = some l := by
  induction l with
  | nil => rfl
  | cons m ms ih => simp [parseAll, parseChatMessage_toJ, ih]

theorem parseAll_length {l : List JValue} : ∀ {ms : List ChatMessage},
    parseAll l = some ms → ms.length = l.length := by
  induction l with
  | nil => intro ms h; simp [parseAll] at h; simp [← h]
  | cons v vs ih =>
    intro ms h
    simp only [parseAll] at h
    cases hv : parseChatMessage v <;> cases hvs : parseAll vs <;>
      simp [hv, hvs] at h
    simp [← h, ih hvs]

theorem validateChatHistory_length_le (v : JValue) :
    (validateChatHistory v).length ≤ MAX_CHAT_HISTORY_SIZE := by
  unfold validateChatHistory chatHistoryParse
  cases v <;> simp
  case jarr elems =>
    split
    · cases hp : parseAll elems with
      | none => simp
      | some ms => simp only [Option.getD_some]; rw [parseAll_length hp]; omega
    · simp

theorem getChatHistory_length_le (st : Store) :
    (getChatHistory st).length ≤ MAX_CHAT_HISTORY_SIZE :=
  validateChatHistory_length_le _

theorem validateChatHistory_map_toJ {l : List ChatMessage}
    (h : l.length ≤ MAX_CHAT_HISTORY_SIZE) :
    validateChatHistory (.jarr (l.map ChatMessage.toJ)) = l := by
  simp [validateChatHistory, chatHistoryParse, h, parseAll_map_toJ]

/-! ### Characterization of the chat-history handlers -/

theorem saveMessage_invalid {m : JValue} (st : Store) (h : parseChatMessage m = none) :
    saveMessage st m = (st, false) := by
  simp [saveMessage, h]

theorem evict_eq_rtake (l : List ChatMessage) :
    (if l.length > MAX_CHAT_HISTORY_SIZE then l.drop (l.length - MAX_CHAT_HISTORY_SIZE) else l)
      = l.rtake MAX_CHAT_HISTORY_SIZE := by
  unfold List.rtake
  split
  · rfl
  · next h => rw [Nat.sub_eq_zero_of_le (by omega), List.drop_zero]

theorem saveMessage_valid {m : JValue} {cm : ChatMessage}
    (h : parseChatMessage m = some cm) (st : Store) :
    saveMessage st m =
      ({ st with chatHistory := some (.jarr
          (((getChatHistory st ++ [cm]).rtake MAX_CHAT_HISTORY_SIZE).map ChatMessage.toJ)) },
       true) := by
  simp only [saveMessage, h, ← evict_eq_rtake, getChatHistory]

theorem saveMessage_returns_true {m : JValue} {cm : ChatMessage}
    (h : parseChatMessage m = some cm) (st : Store) :
    (saveMessage st m).2 = true := by
  rw [saveMessage_valid h st]

theorem getChatHistory_saveMessage {m : JValue} {cm : ChatMessage}
    (h : parseChatMessage m = some cm) (st : Store) :
    getChatHistory (saveMessage st m).1
      = (getChatHistory st ++ [cm]).rtake MAX_CHAT_HISTORY_SIZE := by
  rw [saveMessage_valid h st]
  exact validateChatHistory_map_toJ (by rw [length_rtake]; omega)

theorem getChatHistory_saveAll {ms : List JValue} : ∀ {cms : List ChatMessage},
    parseAll ms = some cms → ∀ st : Store,
    getChatHistory (saveAll st ms)
      = (getChatHistory st ++ cms).rtake MAX_CHAT_HISTORY_SIZE := by
  induction ms with
  | nil =>
    intro cms h st
    simp [parseAll] at h
    subst h
    simp [saveAll, rtake_eq_of_length_le (getChatHistory_length_le st)]
  | cons v vs ih =>
    intro cms h st
    simp only [parseAll] at h
    cases hv : parseChatMessage v <;> cases hvs : parseAll vs <;>
      simp [hv, hvs] at h
    have hfold : saveAll st (v :: vs) = saveAll (saveMessage st v).1 vs := by
      simp [saveAll]
    rw [hfold, ih hvs, getChatHistory_saveMessage hv, rtake_append_left, ← h]
    simp

theorem parseAll_replicate {v : JValue} {c : ChatMessage}
    (h : parseChatMessage v = some c) :
    ∀ n : Nat, parseAll (List.replicate n v) = some (List.replicate n c) := by
  intro n
  induction n with
  | zero => rfl
  | succ k ih => simp [List.replicate_succ, parseAll, h, ih]

theorem filter_idem {α : Type} (p : α → Bool) (l : List α) :
    (l.filter p).filter p = l.filter p := by
  induction l with
  | nil => rfl
  | cons x xs ih =>
    by_cases hx : p x <;> simp [List.filter_cons, hx, ih]

theorem deleteMessage_returns_true (st : Store) (mid : String) :
    (deleteMessage st mid).2 = true := rfl

theorem getChatHistory_deleteMessage (st : Store) (mid : String) :
    getChatHistory (deleteMessage st mid).1
      = (getChatHistory st).filter (fun m => m.id ≠ mid) := by
  show validateChatHistory (.jarr (List.map ChatMessage.toJ _)) = _
  exact validateChatHistory_map_toJ
    (le_trans (List.length_filter_le _ _) (getChatHistory_length_le st))

/-- A fixed well-formed message used as a concrete test input. -/
def msgA : ChatMessage := { id := "a", role := .user, content := "hi", timestamp := 1000 }

/-- A second fixed well-formed message used as a concrete test input. -/
def msgB : ChatMessage := { id := "b", role := .assistant, content := "hello", timestamp := 1001 }

/-! ### The claims -/

/-- C1: for every sequence of N schema-valid `saveMessage` calls with N > 1000,
from any starting store (whose validated history necessarily has length at most
1000), the stored history afterwards has length `min (initial + N) 1000` and
its contents are exactly the last 1000 appended messages in their original
relative order; moreover each single append leaves
`(old ++ [new]).drop (newLength - capacity)` (Nat subtraction giving the
`max 0` clamp), i.e. evicts from index 0 onward preserving the remainder's
relative order. -/
theorem claim_C1_bounded_growth (st : Store) (ms : List JValue) (cms : List ChatMessage)
    (hparse : parseAll ms = some cms) (hN : MAX_CHAT_HISTORY_SIZE < cms.length) :
    getChatHistory (saveAll st ms) = cms.drop (cms.length - MAX_CHAT_HISTORY_SIZE)
    ∧ (getChatHistory (saveAll st ms)).length
        = min ((getChatHistory st).length + cms.length) MAX_CHAT_HISTORY_SIZE
    ∧ ∀ (st' : Store) (v : JValue) (c : ChatMessage), parseChatMessage v = some c →
        getChatHistory (saveMessage st' v).1
          = (getChatHistory st' ++ [c]).drop
              ((getChatHistory st' ++ [c]).length - MAX_CHAT_HISTORY_SIZE) := by
  have hmain := getChatHistory_saveAll hparse st
  have h1 : (getChatHistory st ++ cms).rtake MAX_CHAT_HISTORY_SIZE
      = cms.rtake MAX_CHAT_HISTORY_SIZE :=
    rtake_append_right _ _ _ (le_of_lt hN)
  refine ⟨?_, ?_, ?_⟩
  · rw [hmain, h1]; rfl
  · rw [hmain, length_rtake, List.length_append]; omega
  · intro st' v c hc
    rw [getChatHistory_saveMessage hc]; rfl

/-- Closed instance of C1 at a concrete burst of 1001 valid messages. -/
theorem claim_C1_witness :
    parseAll (List.replicate 1001 msgA.toJ) = some (List.replicate 1001 msgA)
    ∧ MAX_CHAT_HISTORY_SIZE < (List.replicate 1001 msgA).length
    ∧ getChatHistory (saveAll emptyStore (List.replicate 1001 msgA.toJ))
        = (List.replicate 1001 msgA).drop
            ((List.replicate 1001 msgA).length - MAX_CHAT_HISTORY_SIZE) :=
  ⟨parseAll_replicate (parseChatMessage_toJ msgA) 1001,
   by rw [List.length_replicate]; decide,
   (claim_C1_bounded_growth emptyStore _ _
      (parseAll_replicate (parseChatMessage_toJ msgA) 1001)
      (by rw [List.length_replicate]; decide)).1⟩

/-- C2: a message failing `ChatMessageSchema` makes `saveMessage` return
`false` and leaves the whole store — in particular the stored chat history —
completely unchanged. -/
theorem claim_C2_reject_invalid_write (st : Store) (m : JValue)
    (h : parseChatMessage m = none) :
    saveMessage st m = (st, false) :=
  saveMessage_invalid st h

/-- Closed instance of C2 at a message with a missing `content` field. -/
theorem claim_C2_witness :
    parseChatMessage (JValue.jobj
      [("id", .jstr "a"), ("role", .jstr "user"), ("timestamp", .jnum 1)]) = none
    ∧ saveMessage emptyStore (JValue.jobj
        [("id", .jstr "a"), ("role", .jstr "user"), ("timestamp", .jnum 1)])
      = (emptyStore, false) :=
  ⟨rfl, claim_C2_reject_invalid_write emptyStore _ rfl⟩

/-- C3: the boolean-returning IPC wrapper (used for `saveMessage`,
`clearHistory`, `deleteMessage` and `setSettings`) turns every thrown error of
the wrapped body into the value `false`, and its own result is always a
returned value — never a propagated exception. -/
theorem claim_C3_boolean_wrapper_never_throws {α : Type}
    (handler : α → Except String Bool) (args : α) :
    (∀ e : String, handler args = .error e →
        wrapIpcBooleanHandler handler args = .ok false)
    ∧ ∃ b : Bool, wrapIpcBooleanHandler handler args = .ok b := by
  constructor
  · intro e he
    simp [wrapIpcBooleanHandler, he]
  · cases h : handler args with
    | ok b => exact ⟨b, by simp [wrapIpcBooleanHandler, h]⟩
    | error e => exact ⟨false, by simp [wrapIpcBooleanHandler, h]⟩

/-- Closed instance of C3 at a body that always throws. -/
theorem claim_C3_witness :
    wrapIpcBooleanHandler (fun _ : Unit => Except.error "disk full") () = .ok false :=
  (claim_C3_boolean_wrapper_never_throws
    (fun _ : Unit => Except.error "disk full") ()).1 "disk full" rfl

/-- C4: `deleteMessage` always returns `true`; it removes every entry whose id
equals the argument (duplicates included) keeping the others in relative order
(it is exactly a filter); on an id absent from the history it leaves the
history unchanged; and a second call with the same id is a no-op on the whole
store. -/
theorem claim_C4_delete_semantics (st : Store) (messageId : String) :
    (deleteMessage st messageId).2 = true
    ∧ getChatHistory (deleteMessage st messageId).1
        = (getChatHistory st).filter (fun m => m.id ≠ messageId)
    ∧ (∀ m ∈ getChatHistory (deleteMessage st messageId).1, m.id ≠ messageId)
    ∧ ((∀ m ∈ getChatHistory st, m.id ≠ messageId) →
        getChatHistory (deleteMessage st messageId).1 = getChatHistory st)
    ∧ deleteMessage (deleteMessage st messageId).1 messageId
        = ((deleteMessage st messageId).1, true) := by
  refine ⟨rfl, getChatHistory_deleteMessage st messageId, ?_, ?_, ?_⟩
  · intro m hm
    rw [getChatHistory_deleteMessage st messageId] at hm
    have := List.of_mem_filter hm
    simpa using this
  · intro habs
    rw [getChatHistory_deleteMessage st messageId]
    exact List.filter_eq_self.mpr (fun m hm => by simpa using habs m hm)
  · obtain ⟨c, w, g⟩ := st
    have hlen : ((validateChatHistory (c.getD (.jarr []))).filter
        (fun m => m.id ≠ messageId)).length ≤ MAX_CHAT_HISTORY_SIZE :=
      le_trans (List.length_filter_le _ _) (validateChatHistory_length_le _)
    simp only [deleteMessage, getChatHistory, getChatHistoryRaw, Option.getD_some]
    rw [validateChatHistory_map_toJ hlen, filter_idem]

/-- Closed instance of C4 at a concrete store and id. -/
theorem claim_C4_witness :
    (∀ m ∈ getChatHistory (saveMessage emptyStore msgA.toJ).1, m.id ≠ "zzz")
    ∧ getChatHistory (deleteMessage (saveMessage emptyStore msgA.toJ).1 "zzz").1
        = getChatHistory (saveMessage emptyStore msgA.toJ).1
    ∧ deleteMessage (deleteMessage (saveMessage emptyStore msgA.toJ).1 "zzz").1 "zzz"
        = ((deleteMessage (saveMessage emptyStore msgA.toJ).1 "zzz").1, true) :=
  ⟨by decide,
   (claim_C4_delete_semantics (saveMessage emptyStore msgA.toJ).1 "zzz").2.2.2.1 (by decide),
   (claim_C4_delete_semantics (saveMessage emptyStore msgA.toJ).1 "zzz").2.2.2.2⟩

/-- C6: every read path substitutes a safe default on validation failure
instead of raising: a chat-history slot that fails `ChatHistorySchema` reads as
the empty list, a window-state slot that fails `WindowStateSchema` reads as no
value, and a settings slot that fails `SettingsSchema` reads as the empty
object. (The read handlers are total functions, so no decode failure is ever
surfaced as a fault.) -/
theorem claim_C6_lenient_read_defaults (st : Store) :
    (chatHistoryParse (getChatHistoryRaw st) = none → getChatHistory st = [])
    ∧ (∀ v : JValue, st.windowState = some v → parseWindowState v = none →
        getWindowState st = none)
    ∧ (∀ v : JValue, st.settings = some v → parseSettings v = none →
        getSettings st = .jobj []) := by
  refine ⟨?_, ?_, ?_⟩
  · intro h
    simp [getChatHistory, validateChatHistory, h]
  · intro v hv h
    simp [getWindowState, hv, validateWindowState, h]
  · intro v hv h
    simp [getSettings, hv, validateSettings, h]

/-- A store whose three slots all hold schema-invalid data. -/
def corruptStore : Store :=
  { chatHistory := some (.jstr "oops"), windowState := some (.jnum 3),
    settings := some (.jarr []) }

/-- Closed instance of C6 at a store with corrupt slots. -/
theorem claim_C6_witness :
    getChatHistory corruptStore = []
    ∧ getWindowState corruptStore = none
    ∧ getSettings corruptStore = .jobj [] :=
  ⟨(claim_C6_lenient_read_defaults corruptStore).1 rfl,
   (claim_C6_lenient_read_defaults corruptStore).2.1 (.jnum 3) rfl rfl,
   (claim_C6_lenient_read_defaults corruptStore).2.2 (.jarr []) rfl rfl⟩

theorem parseAll_eq_none_of_mem {l : List JValue} {v : JValue}
    (hv : v ∈ l) (h : parseChatMessage v = none) : parseAll l = none := by
  induction l with
  | nil => cases hv
  | cons x xs ih =>
    rcases List.mem_cons.mp hv with heq | hmem
    · subst heq
      simp [parseAll, h]
    · cases hx : parseChatMessage x <;> simp [parseAll, hx, ih hmem]

/-- C9: lenient chat-history validation is all-or-nothing — an array with one
invalid element, or with more than 1000 elements, validates to the empty list
(valid elements are not kept as a filtered subset), and the next successful
`saveMessage` on such a store persists a history containing only the new
message. -/
theorem claim_C9_all_or_nothing (l : List JValue) (st : Store) :
    ((∃ v ∈ l, parseChatMessage v = none) → validateChatHistory (.jarr l) = [])
    ∧ (MAX_CHAT_HISTORY_SIZE < l.length → validateChatHistory (.jarr l) = [])
    ∧ (∀ (m : JValue) (cm : ChatMessage),
        chatHistoryParse (getChatHistoryRaw st) = none → parseChatMessage m = some cm →
        getChatHistory (saveMessage st m).1 = [cm]) := by
  refine ⟨?_, ?_, ?_⟩
  · rintro ⟨v, hv, hnone⟩
    show (if l.length ≤ MAX_CHAT_HISTORY_SIZE then parseAll l else none).getD [] = []
    rw [parseAll_eq_none_of_mem hv hnone]
    split <;> rfl
  · intro h
    show (if l.length ≤ MAX_CHAT_HISTORY_SIZE then parseAll l else none).getD [] = []
    rw [if_neg (by omega)]
    rfl
  · intro m cm hbad hm
    rw [getChatHistory_saveMessage hm]
    have h0 : getChatHistory st = [] := by
      simp [getChatHistory, validateChatHistory, hbad]
    rw [h0, List.nil_append]
    exact rtake_eq_of_length_le (by rw [List.length_singleton]; decide)

/-- Closed instance of C9: a corrupt stored history reads as empty and the next
valid save persists exactly the new message. -/
theorem claim_C9_witness :
    JValue.jstr "bad" ∈ [JValue.jstr "bad"]
    ∧ parseChatMessage (.jstr "bad") = none
    ∧ validateChatHistory (.jarr [.jstr "bad"]) = []
    ∧ chatHistoryParse (getChatHistoryRaw corruptStore) = none
    ∧ parseChatMessage msgB.toJ = some msgB
    ∧ getChatHistory (saveMessage corruptStore msgB.toJ).1 = [msgB] :=
  ⟨List.mem_singleton.mpr rfl, rfl,
   (claim_C9_all_or_nothing [.jstr "bad"] corruptStore).1
     ⟨.jstr "bad", List.mem_singleton.mpr rfl, rfl⟩,
   rfl, parseChatMessage_toJ msgB,
   (claim_C9_all_or_nothing [.jstr "bad"] corruptStore).2.2 msgB.toJ msgB rfl
     (parseChatMessage_toJ msgB)⟩

/-- The key list of a JSON object (and `[]` on non-objects). -/
def jsonKeys : JValue → List String
  | .jobj fields => fields.map Prod.fst
  | _ => []

theorem asString_eq_some {o : Option JValue} {s : String} :
    asString o = some s ↔ o = some (.jstr s) := by
  constructor
  · intro h
    unfold asString at h
    split at h <;> simp_all
  · rintro rfl; rfl

theorem asNumber_eq_some {o : Option JValue} {n : Int} :
    asNumber o = some n ↔ o = some (.jnum n) := by
  constructor
  · intro h
    unfold asNumber at h
    split at h <;> simp_all
  · rintro rfl; rfl

theorem asRole_eq_some {o : Option JValue} {r : Role} :
    asRole o = some r ↔ o = some (.jstr r.str) := by
  constructor
  · intro h
    unfold asRole at h
    split at h <;> simp_all [Role.str] <;> cases r <;> simp_all [Role.str]
  · rintro rfl
    cases r <;> rfl

theorem getField_append {k : String} {fields : List (String × JValue)} {v : JValue}
    (h : getField k fields = some v) (extra : List (String × JValue)) :
    getField k (fields ++ extra) = some v := by
  induction fields with
  | nil => simp [getField] at h
  | cons p rest ih =>
    obtain ⟨k', v'⟩ := p
    simp only [getField, List.cons_append] at h ⊢
    by_cases hk : k' = k
    · rwa [if_pos hk] at h ⊢
    · rw [if_neg hk] at h ⊢
      exact ih h

theorem parseChatMessage_fields {fields : List (String × JValue)} {m : ChatMessage}
    (h : parseChatMessage (.jobj fields) = some m) :
    getField "id" fields = some (.jstr m.id)
    ∧ getField "role" fields = some (.jstr m.role.str)
    ∧ getField "content" fields = some (.jstr m.content)
    ∧ getField "timestamp" fields = some (.jnum m.timestamp) := by
  simp only [parseChatMessage, Option.bind_eq_bind, Option.bind_eq_some, Option.pure_def,
    Option.some.injEq] at h
  obtain ⟨id, hid, role, hrole, content, hcontent, ts, hts, hm⟩ := h
  subst hm
  exact ⟨asString_eq_some.mp hid, asRole_eq_some.mp hrole,
    asString_eq_some.mp hcontent, asNumber_eq_some.mp hts⟩

theorem parseChatMessage_append_extra {fields : List (String × JValue)} {m : ChatMessage}
    (h : parseChatMessage (.jobj fields) = some m) (extra : List (String × JValue)) :
    parseChatMessage (.jobj (fields ++ extra)) = some m := by
  obtain ⟨h1, h2, h3, h4⟩ := parseChatMessage_fields h
  simp only [parseChatMessage, getField_append h1, getField_append h2,
    getField_append h3, getField_append h4]
  have hr : asRole (some (.jstr m.role.str)) = some m.role := asRole_eq_some.mpr rfl
  simp [asString, asNumber, hr]

theorem getLast?_rtake_concat {α : Type} (l : List α) (x : α) {n : Nat} (hn : 0 < n) :
    ((l ++ [x]).rtake n).getLast? = some x := by
  obtain ⟨k, rfl⟩ : ∃ k, n = k + 1 := ⟨n - 1, by omega⟩
  rw [List.rtake_concat_succ]
  exact List.getLast?_concat _

/-- C10: `saveMessage` persists only the four schema fields: a message object
carrying extra fields (such as `imageData` / `imageMimeType`) parses to the
same stripped `ChatMessage`, what is stored for it is its four-field
re-encoding, and a subsequent `getChatHistory` returns the stripped message. -/
theorem claim_C10_strip_extra_fields (st : Store) (fields : List (String × JValue))
    (m : ChatMessage) (h : parseChatMessage (.jobj fields) = some m) :
    (∃ stored : List JValue,
        (saveMessage st (.jobj fields)).1.chatHistory = some (.jarr stored)
        ∧ stored.getLast? = some m.toJ)
    ∧ jsonKeys m.toJ = ["id", "role", "content", "timestamp"]
    ∧ (∀ extra : List (String × JValue),
        parseChatMessage (.jobj (fields ++ extra)) = some m)
    ∧ (getChatHistory (saveMessage st (.jobj fields)).1).getLast? = some m := by
  refine ⟨?_, rfl, parseChatMessage_append_extra h, ?_⟩
  · refine ⟨((getChatHistory st ++ [m]).rtake MAX_CHAT_HISTORY_SIZE).map ChatMessage.toJ,
      ?_, ?_⟩
    · rw [saveMessage_valid h st]
    · rw [List.getLast?_map, getLast?_rtake_concat _ _ (by decide)]
      rfl
  · rw [getChatHistory_saveMessage h]
    exact getLast?_rtake_concat _ _ (by decide)

/-- A message object carrying the optional `imageData` / `imageMimeType`
fields of the `ChatMessage` interface on top of the four schema fields. -/
def msgCFields : List (String × JValue) :=
  [("id", .jstr "c"), ("role", .jstr "user"), ("content", .jstr "look"),
   ("timestamp", .jnum 5), ("imageData", .jstr "AAAA"),
   ("imageMimeType", .jstr "image/png")]

/-- The stripped form of `msgCFields`. -/
def msgC : ChatMessage := { id := "c", role := .user, content := "look", timestamp := 5 }

/-- Closed instance of C10 at a message carrying `imageData` extras. -/
theorem claim_C10_witness :
    parseChatMessage (.jobj msgCFields) = some msgC
    ∧ jsonKeys msgC.toJ = ["id", "role", "content", "timestamp"]
    ∧ (getChatHistory (saveMessage emptyStore (.jobj msgCFields)).1).getLast? = some msgC :=
  ⟨rfl,
   (claim_C10_strip_extra_fields emptyStore msgCFields msgC rfl).2.1,
   (claim_C10_strip_extra_fields emptyStore msgCFields msgC rfl).2.2.2⟩

/-- Notifies arriving strictly within the pending quiet period neither write
nor lose the accumulated store; they only push the deadline to 500 ms after the
last notify. -/
theorem runNotifies_within (geom : Nat → WindowState) :
    ∀ (ts : List Nat) (t : Nat) (st : Store) (w : List Nat),
    List.Chain (fun a b => a ≤ b ∧ b < a + WINDOW_STATE_SAVE_DEBOUNCE_MS) t ts →
    runNotifies geom ⟨st, w, some (t + WINDOW_STATE_SAVE_DEBOUNCE_MS)⟩ ts
      = ⟨st, w, some (ts.getLastD t + WINDOW_STATE_SAVE_DEBOUNCE_MS)⟩ := by
  intro ts
  induction ts with
  | nil => intro t st w _; rfl
  | cons t' rest ih =>
    intro t st w hch
    obtain ⟨⟨hle, hlt⟩, hch'⟩ := List.chain_cons.mp hch
    have hstep : notifyAt geom ⟨st, w, some (t + WINDOW_STATE_SAVE_DEBOUNCE_MS)⟩ t'
        = ⟨st, w, some (t' + WINDOW_STATE_SAVE_DEBOUNCE_MS)⟩ := by
      simp only [notifyAt]
      rw [if_neg (by omega)]
    show runNotifies geom
        (notifyAt geom ⟨st, w, some (t + WINDOW_STATE_SAVE_DEBOUNCE_MS)⟩ t') rest = _
    rw [hstep, ih t' st w hch', List.getLastD_cons]

/-- C5: a burst of notifies each arriving strictly within the quiet period of
its predecessor produces exactly one persisted write; it happens at 500 ms
after the last notify and records the geometry current at that fire time.
Every notify received while a timer is pending replaces the deadline with its
own time plus 500 ms (cancel and restart). -/
theorem claim_C5_debounce_coalescing (geom : Nat → WindowState) (st : Store)
    (t : Nat) (ts : List Nat)
    (hburst : List.Chain (fun a b => a ≤ b ∧ b < a + WINDOW_STATE_SAVE_DEBOUNCE_MS) t ts) :
    (fireFinal geom (runNotifies geom ⟨st, [], none⟩ (t :: ts))).writes
        = [ts.getLastD t + WINDOW_STATE_SAVE_DEBOUNCE_MS]
    ∧ (fireFinal geom (runNotifies geom ⟨st, [], none⟩ (t :: ts))).store.windowState
        = some (geom (ts.getLastD t + WINDOW_STATE_SAVE_DEBOUNCE_MS)).toJ
    ∧ ∀ (r : DebounceRun) (t' : Nat),
        (notifyAt geom r t').pending = some (t' + WINDOW_STATE_SAVE_DEBOUNCE_MS) := by
  have h1 : runNotifies geom ⟨st, [], none⟩ (t :: ts)
      = ⟨st, [], some (ts.getLastD t + WINDOW_STATE_SAVE_DEBOUNCE_MS)⟩ := by
    show runNotifies geom (notifyAt geom ⟨st, [], none⟩ t) ts = _
    exact runNotifies_within geom ts t st [] hburst
  refine ⟨?_, ?_, ?_⟩
  · rw [h1]; rfl
  · rw [h1]; rfl
  · intro r t'
    cases hp : r.pending <;> simp [notifyAt, hp]
    split <;> rfl

/-- A fixed window geometry used as a concrete test input. -/
def geomA : WindowState :=
  { x := 10, y := 20, width := 1000, height := 700, isMaximized := false }

/-- Closed instance of C5 at the burst 0, 100, 200 ms: one write at 700 ms. -/
theorem claim_C5_witness :
    List.Chain (fun a b => a ≤ b ∧ b < a + WINDOW_STATE_SAVE_DEBOUNCE_MS) 0 [100, 200]
    ∧ (fireFinal (fun _ => geomA) (runNotifies (fun _ => geomA)
        ⟨emptyStore, [], none⟩ [0, 100, 200])).writes = [700]
    ∧ (fireFinal (fun _ => geomA) (runNotifies (fun _ => geomA)
        ⟨emptyStore, [], none⟩ [0, 100, 200])).store.windowState = some geomA.toJ :=
  ⟨List.Chain.cons (by decide) (List.Chain.cons (by decide) List.Chain.nil),
   (claim_C5_debounce_coalescing (fun _ => geomA) emptyStore 0 [100, 200]
     (List.Chain.cons (by decide) (List.Chain.cons (by decide) List.Chain.nil))).1,
   (claim_C5_debounce_coalescing (fun _ => geomA) emptyStore 0 [100, 200]
     (List.Chain.cons (by decide) (List.Chain.cons (by decide) List.Chain.nil))).2.1⟩

theorem parseWindowState_toJ (w : WindowState) : parseWindowState w.toJ = some w := by
  obtain ⟨x, y, width, height, isMax⟩ := w
  rfl

/-- Live window bounds larger than twice a 1920×1080 work area. -/
def bigBounds : WindowState :=
  { x := 0, y := 0, width := 5000, height := 4000, isMaximized := false }

/-- A 1920×1080 work area at the origin. -/
def display1080 : Display := { x := 0, y := 0, width := 1920, height := 1080 }

/-- C7 counterexample: the save path applies no clamping, so a window wider
than `MAX_DIMENSION_MULTIPLIER ×` the current display is persisted as-is —
"width and height are never persisted above 2× the current display size" is
false of the code. -/
theorem claim_C7_counterexample :
    getWindowState (fireWindowStateSave emptyStore bigBounds) = some bigBounds
    ∧ display1080.width * MAX_DIMENSION_MULTIPLIER < bigBounds.width := by
  exact ⟨rfl, by decide⟩

/-- C7 as amended: window geometry is persisted as-is, with no clamping at save
time; the 800×600 / 2×-display / off-screen clamping is instead applied on
every load — whenever the saved geometry is off-screen or has invalid
dimensions, the loaded state is the centered default preserving `isMaximized`,
and the load path always routes through this clamping decision. -/
theorem claim_C7_amended (st : Store) (bounds saved : WindowState) (d : Display)
    (h : isOffScreen saved d = true ∨ hasInvalidDimensions saved d = true) :
    getWindowState (fireWindowStateSave st bounds) = some bounds
    ∧ chooseWindowState saved d = centeredDefault d saved.isMaximized
    ∧ (chooseWindowState saved d).isMaximized = saved.isMaximized
    ∧ ∀ st' : Store, loadWindowState st' d
        = chooseWindowState
            ((validateWindowState (st'.windowState.getD defaultWindowState.toJ)).getD
              defaultWindowState) d := by
  have hchoose : chooseWindowState saved d = centeredDefault d saved.isMaximized := by
    unfold chooseWindowState
    rcases h with h | h <;> rw [if_pos (by simp [h])]
  refine ⟨?_, hchoose, ?_, fun _ => rfl⟩
  · show getWindowState { st with windowState := some bounds.toJ } = some bounds
    simp [getWindowState, validateWindowState, parseWindowState_toJ]
  · rw [hchoose]
    rfl

/-- Closed instance of the amended C7: oversized saved geometry is replaced at
load by the centered default with `isMaximized` preserved. -/
theorem claim_C7_witness :
    hasInvalidDimensions bigBounds display1080 = true
    ∧ chooseWindowState bigBounds display1080
        = centeredDefault display1080 bigBounds.isMaximized
    ∧ (chooseWindowState bigBounds display1080).isMaximized = bigBounds.isMaximized :=
  ⟨by decide,
   (claim_C7_amended emptyStore bigBounds bigBounds display1080 (Or.inr (by decide))).2.1,
   (claim_C7_amended emptyStore bigBounds bigBounds display1080 (Or.inr (by decide))).2.2.1⟩

theorem validateBase64_eq_true {i : String} :
    validateBase64 i = true ↔ i ≠ "" ∧ (base64Shape i && i.length % 4 == 0) = true := by
  unfold validateBase64
  split <;> simp_all

theorem validateMimeType_eq_true {m : String} :
    validateMimeType m = true ↔ m ≠ "" ∧ ALLOWED_IMAGE_TYPES.contains (jsToLower m) = true := by
  unfold validateMimeType
  split <;> simp_all

theorem validateImageData_valid_iff {i m : String} :
    validateImageData i m = .valid ↔
      i ≠ "" ∧ m ≠ "" ∧ validateMimeType m = true ∧ validateBase64 i = true := by
  unfold validateImageData
  split_ifs with h1 h2 h3 h4 <;> simp_all

theorem reachesAI_eq_true_iff {a b c : JValue} :
    (analyzeImageHandler a b c).reachesAI = true ↔
      ∃ i m p : String, a = .jstr i ∧ b = .jstr m ∧ c = .jstr p
        ∧ ¬ jsTrim i = "" ∧ ¬ jsTrim m = "" ∧ ¬ jsTrim p = ""
        ∧ validateImageData i m = .valid := by
  cases a <;> cases b <;> cases c
  case jstr.jstr.jstr i m p =>
    by_cases hcond : jsTrim i = "" ∨ jsTrim m = "" ∨ jsTrim p = ""
    · rcases hcond with h | h | h <;>
        simp [analyzeImageHandler, AnalyzeOutcome.reachesAI, h]
    · push_neg at hcond
      obtain ⟨h1, h2, h3⟩ := hcond
      cases hval : validateImageData i m <;>
        simp [analyzeImageHandler, AnalyzeOutcome.reachesAI, h1, h2, h3, hval]
  all_goals simp [analyzeImageHandler, AnalyzeOutcome.reachesAI]

/-- C8: the `ANALYZE_IMAGE` operation rejects (returns an unsuccessful
envelope, never reaching the AI call) whenever any argument is not a non-empty
string, whenever the MIME type is outside the allowed whitelist (membership is
case-insensitive, as implemented by `validateMimeType`), and whenever the image
data fails base64-shape validation (the regex `[A-Za-z0-9+/]*={0,2}` with
length divisible by 4); only inputs passing all three checks reach the AI
call. -/
theorem claim_C8_analyze_input_validation (a b c : JValue) :
    (((¬ ∃ s : String, a = .jstr s ∧ s ≠ "") ∨ (¬ ∃ s : String, b = .jstr s ∧ s ≠ "")
        ∨ (¬ ∃ s : String, c = .jstr s ∧ s ≠ "")) →
      (analyzeImageHandler a b c).reachesAI = false)
    ∧ (∀ m : String, b = .jstr m → ALLOWED_IMAGE_TYPES.contains (jsToLower m) = false →
        (analyzeImageHandler a b c).reachesAI = false)
    ∧ (∀ i : String, a = .jstr i → (base64Shape i && i.length % 4 == 0) = false →
        (analyzeImageHandler a b c).reachesAI = false)
    ∧ ((analyzeImageHandler a b c).reachesAI = true →
        (∃ s : String, a = .jstr s ∧ s ≠ "") ∧ (∃ s : String, b = .jstr s ∧ s ≠ "")
        ∧ (∃ s : String, c = .jstr s ∧ s ≠ "")
        ∧ (∃ s : String, b = .jstr s ∧ ALLOWED_IMAGE_TYPES.contains (jsToLower s) = true)
        ∧ (∃ s : String, a = .jstr s ∧ (base64Shape s && s.length % 4 == 0) = true)) := by
  have hne : ∀ s : String, ¬ jsTrim s = "" → s ≠ "" := by
    intro s hs e
    exact hs (by rw [e]; rfl)
  refine ⟨?_, ?_, ?_, ?_⟩
  · intro hdisj
    rw [← Bool.not_eq_true]
    intro htrue
    obtain ⟨i, m, p, rfl, rfl, rfl, hti, htm, htp, -⟩ := reachesAI_eq_true_iff.mp htrue
    rcases hdisj with hd | hd | hd
    · exact hd ⟨i, rfl, hne i hti⟩
    · exact hd ⟨m, rfl, hne m htm⟩
    · exact hd ⟨p, rfl, hne p htp⟩
  · rintro m rfl hcontains
    rw [← Bool.not_eq_true]
    intro htrue
    obtain ⟨i, m', p, rfl, hbm, rfl, -, -, -, hval⟩ := reachesAI_eq_true_iff.mp htrue
    obtain rfl : m = m' := by injection hbm
    obtain ⟨-, -, hmime, -⟩ := validateImageData_valid_iff.mp hval
    obtain ⟨-, hcont⟩ := validateMimeType_eq_true.mp hmime
    rw [hcontains] at hcont
    exact absurd hcont (by simp)
  · rintro i rfl hshape
    rw [← Bool.not_eq_true]
    intro htrue
    obtain ⟨i', m, p, hai, rfl, rfl, -, -, -, hval⟩ := reachesAI_eq_true_iff.mp htrue
    obtain rfl : i = i' := by injection hai
    obtain ⟨-, -, -, hb64⟩ := validateImageData_valid_iff.mp hval
    obtain ⟨-, hsh⟩ := validateBase64_eq_true.mp hb64
    rw [hshape] at hsh
    exact absurd hsh (by simp)
  · intro htrue
    obtain ⟨i, m, p, rfl, rfl, rfl, hti, htm, htp, hval⟩ := reachesAI_eq_true_iff.mp htrue
    obtain ⟨hine, hmne, hmime, hb64⟩ := validateImageData_valid_iff.mp hval
    obtain ⟨-, hcont⟩ := validateMimeType_eq_true.mp hmime
    obtain ⟨-, hsh⟩ := validateBase64_eq_true.mp hb64
    exact ⟨⟨i, rfl, hine⟩, ⟨m, rfl, hmne⟩, ⟨p, rfl, hne p htp⟩,
      ⟨m, rfl, hcont⟩, ⟨i, rfl, hsh⟩⟩

/-- Closed instance of C8 at a valid input: the gate is reached and all three
checks hold. -/
theorem claim_C8_witness :
    (analyzeImageHandler (.jstr "AAAA") (.jstr "image/png") (.jstr "hi")).reachesAI = true
    ∧ (∃ s : String, JValue.jstr "AAAA" = .jstr s ∧ s ≠ "")
    ∧ (∃ s : String, JValue.jstr "image/png" = .jstr s ∧ s ≠ "")
    ∧ (∃ s : String, JValue.jstr "hi" = .jstr s ∧ s ≠ "")
    ∧ (∃ s : String, JValue.jstr "image/png" = .jstr s
        ∧ ALLOWED_IMAGE_TYPES.contains (jsToLower s) = true)
    ∧ (∃ s : String, JValue.jstr "AAAA" = .jstr s
        ∧ (base64Shape s && s.length % 4 == 0) = true) :=
  ⟨rfl,
   (claim_C8_analyze_input_validation (.jstr "AAAA") (.jstr "image/png") (.jstr "hi")).2.2.2
     rfl⟩

end Art2
